import Mathlib

/-!
Shallow embedding of the traffic-calibration and experiment-parameterization
logic of `CDoS-6Mbps-adhoc-UDP-building.cc` (an ns-3 scenario).  Real-number
quantities computed with `double` arithmetic in the source are modelled over
`ℚ`; the algebraic identities in question are exact, so the rational model is
the idealisation the specification refers to ("within floating-point
tolerance").  Integer quantities (`uint16_t`, `size_t`) are modelled as `ℕ`;
where the source performs integer division (`i/1000`, `NumofNode/2`), the
model uses `ℕ` division as well.
-/

namespace CDoS

/-- An on/off random-variable configuration handed to an `OnOffHelper`:
either both OnTime and OffTime are constants (the degenerate branches of
lines 132-137), or OnTime is a constant and OffTime is exponential with the
given mean (lines 138-145 and 149-155). -/
inductive OnOffSetting where
  | const (onC offC : ℚ)
  | expo (onConst offMean : ℚ)
deriving DecidableEq

/-- Seconds needed to transmit one packet at the nominal 6 Mbps rate,
lines 140 and 151: `(double)1/6000000 * PktLength*8`. -/
def pktTime (PktLength : ℕ) : ℚ := 1 / 6000000 * PktLength * 8

/-- The exponential OffTime mean exactly as the source computes it
(lines 143 and 154): `1/(load*(1/pkt_time)) - pkt_time`. -/
def offTimeMean (load pkt_time : ℚ) : ℚ := 1 / (load * (1 / pkt_time)) - pkt_time

/-- The closed form the specification states for the OffTime mean:
`packetTransmitTime * (1/targetUtilization - 1)`. -/
def offMeanSpec (load pkt_time : ℚ) : ℚ := pkt_time * (1 / load - 1)

/-- The OnTime/OffTime setting of flow `i`, mirroring the branch structure of
lines 131-155: the last flow index `NumofNode/2 - 1` is driven by
`FirstNodeLoad` with degenerate constant branches at loads exactly 1 and 0,
every other flow is driven by `RestNodeLoad` through the exponential branch. -/
def flowSetting (NumofNode : ℕ) (FirstNodeLoad RestNodeLoad : ℚ) (PktLength : ℕ)
    (i : ℕ) : OnOffSetting :=
  if i = NumofNode / 2 - 1 then
    if FirstNodeLoad = 1 then OnOffSetting.const 1 0
    else if FirstNodeLoad = 0 then OnOffSetting.const 0 1
    else OnOffSetting.expo (pktTime PktLength) (offTimeMean FirstNodeLoad (pktTime PktLength))
  else OnOffSetting.expo (pktTime PktLength) (offTimeMean RestNodeLoad (pktTime PktLength))

/-- StartTime of flow `i` in seconds: 53 for the last flow (line 147),
`3.100 + i*0.01` for the others (line 157). -/
def flowStart (NumofNode : ℕ) (i : ℕ) : ℚ :=
  if i = NumofNode / 2 - 1 then 53 else 31 / 10 + i * (1 / 100)

/-- StopTime of flow `i`: 153 s for the last flow (line 148); the other flows
get no StopTime attribute and run until the simulation ends. -/
def flowStop (NumofNode : ℕ) (i : ℕ) : Option ℚ :=
  if i = NumofNode / 2 - 1 then some 153 else none

/-- Everything the loop of lines 123-165 configures for flow `i`: the OnOff
source on node `i*2` targeting `10.0.0.(i*2+2)` port `12345+i`, the
PacketSink on node `i*2+1`, a 6000000 bps DataRate cap, and the activity
window. -/
structure FlowConfig where
  packetSize : ℕ
  setting : OnOffSetting
  dataRateBps : ℕ
  startTime : ℚ
  stopTime : Option ℚ
  senderNode : ℕ
  sinkNode : ℕ
  sinkPort : ℕ
  destAddrLastOctet : ℕ
deriving DecidableEq

/-- Flow `i` as built by one iteration of the loop of lines 123-165. -/
def buildFlow (NumofNode : ℕ) (FirstNodeLoad RestNodeLoad : ℚ) (PktLength : ℕ)
    (i : ℕ) : FlowConfig :=
  { packetSize := PktLength
    setting := flowSetting NumofNode FirstNodeLoad RestNodeLoad PktLength i
    dataRateBps := 6000000
    startTime := flowStart NumofNode i
    stopTime := flowStop NumofNode i
    senderNode := i * 2
    sinkNode := i * 2 + 1
    sinkPort := 12345 + i
    destAddrLastOctet := i * 2 + 2 }

/-- All flows of one experiment: the loop runs `i = 0 .. NumofNode/2 - 1`
(line 123). -/
def experimentFlows (NumofNode : ℕ) (FirstNodeLoad RestNodeLoad : ℚ)
    (PktLength : ℕ) : List FlowConfig :=
  (List.range (NumofNode / 2)).map (buildFlow NumofNode FirstNodeLoad RestNodeLoad PktLength)

/-- StartTime of the echo probe of flow `i`, line 184:
`Seconds (0.001 + i/1000)` where `i` is a `size_t`, so `i/1000` is INTEGER
division (it yields 0 for every `i < 1000`). -/
def probeStart (i : ℕ) : ℚ := 1 / 1000 + ((i / 1000 : ℕ) : ℚ)

/-- Fixed-point rendering with two decimal places, modelling the `%1.2f` and
`%.2f` conversions of line 194 for the nonnegative loads the program uses
(the minimum field width 1 has no effect on them, and none of the values
used is a rounding tie). -/
def fmt2 (q : ℚ) : String :=
  toString (round (q * 100) / 100) ++ "." ++
    (if round (q * 100) % 100 < 10 then "0" else "") ++ toString (round (q * 100) % 100)

/-- Name of the fixed top-level output directory created at line 190. -/
def topDirName : String := "CDoS-6Mbps-adhoc-UDP-building"

/-- The constant part of the sprintf template of line 194,
`./CDoS-6Mbps-adhoc-UDP-building/u_0=%1.2frho=%.2fT=` with the two loads
filled in. -/
def pathStem (FirstNodeLoad RestNodeLoad : ℚ) : String :=
  "./" ++ topDirName ++ "/u_0=" ++ fmt2 FirstNodeLoad ++ "rho=" ++ fmt2 RestNodeLoad ++ "T="

/-- The per-run output directory of line 194: the full sprintf result. -/
def outputPath (FirstNodeLoad RestNodeLoad : ℚ) (PktLength : ℕ) : String :=
  pathStem FirstNodeLoad RestNodeLoad ++ toString PktLength

/-- The statistics path handed to `EnableAthstats` (line 196):
the run directory plus `/nodes`. -/
def statsFileName (FirstNodeLoad RestNodeLoad : ℚ) (PktLength : ℕ) : String :=
  outputPath FirstNodeLoad RestNodeLoad PktLength ++ "/nodes"

/-- Possible outcomes of one `experiment` call.  The error constructors
exist so that the failure semantics claimed by the spec can be stated; the
source itself contains no path that produces them. -/
inductive RunOutcome where
  | ok (flows : List FlowConfig) (statsPath : String)
  | configurationError
  | resourceError
deriving DecidableEq

/-- Outcome of `experiment` (lines 55-207).  The source validates neither
`FirstNodeLoad` nor `RestNodeLoad` (the only branches on them are the
equality tests of lines 132 and 135), and it discards the return values of
both `mkdir` calls (lines 190 and 197), so every input proceeds to
`Simulator::Run` and the outcome is unconditionally `ok`. -/
def experimentOutcome (enableCtsRts : Bool) (NumofNode DurationofSimulation : ℕ)
    (FirstNodeLoad RestNodeLoad : ℚ) (PktLength : ℕ) : RunOutcome :=
  RunOutcome.ok (experimentFlows NumofNode FirstNodeLoad RestNodeLoad PktLength)
    (statsFileName FirstNodeLoad RestNodeLoad PktLength)

/-- C1: for a flow whose configured load is fractional (every ordinary flow,
and the last flow when its load is neither 0 nor 1), the calibrator emits the
exponential branch with constant on-duration `pktTime = PktLength*8/6000000`
and off-duration mean `pktTime*(1/u - 1)`, and the long-run utilization
identity `onDuration/(onDuration + mean) = u` holds exactly. -/
theorem C1_calibrator (NumofNode i : ℕ) (FirstNodeLoad RestNodeLoad : ℚ)
    (PktLength : ℕ) (hp : 0 < PktLength) (u : ℚ)
    (hu : u = if i = NumofNode / 2 - 1 then FirstNodeLoad else RestNodeLoad)
    (h0 : 0 < u) (h1 : u < 1) :
    flowSetting NumofNode FirstNodeLoad RestNodeLoad PktLength i =
      OnOffSetting.expo (pktTime PktLength) (offTimeMean u (pktTime PktLength)) ∧
    pktTime PktLength = PktLength * 8 / 6000000 ∧
    offTimeMean u (pktTime PktLength) = pktTime PktLength * (1 / u - 1) ∧
    pktTime PktLength / (pktTime PktLength + offTimeMean u (pktTime PktLength)) = u := by
  have hpq : (0:ℚ) < PktLength := by exact_mod_cast hp
  have hpt : 0 < pktTime PktLength := by
    unfold pktTime; positivity
  have hpt0 : pktTime PktLength ≠ 0 := ne_of_gt hpt
  have hu0 : u ≠ 0 := ne_of_gt h0
  have hu1 : u ≠ 1 := ne_of_lt h1
  have hmean : offTimeMean u (pktTime PktLength) = pktTime PktLength * (1 / u - 1) := by
    unfold offTimeMean
    field_simp
    ring
  refine ⟨?_, ?_, hmean, ?_⟩
  · unfold flowSetting
    by_cases hi : i = NumofNode / 2 - 1
    · rw [if_pos hi]
      rw [hu, if_pos hi] at h0 h1
      rw [if_neg (ne_of_lt h1), if_neg (ne_of_gt h0)]
      rw [hu, if_pos hi]
    · rw [if_neg hi]
      rw [hu, if_neg hi]
  · unfold pktTime; ring
  · rw [hmean, show pktTime PktLength + pktTime PktLength * (1 / u - 1)
        = pktTime PktLength * u⁻¹ by ring]
    have hX : pktTime PktLength * u⁻¹ ≠ 0 := mul_ne_zero hpt0 (inv_ne_zero hu0)
    rw [div_eq_iff hX, mul_comm u, mul_assoc, inv_mul_cancel₀ hu0, mul_one]

/-- Witness for C1 at the concrete ordinary-flow parameters of the default
batch: flow 0 of 6 stations, loads 1 and 0.14, 1500-byte packets. -/
theorem C1_calibrator_witness :
    flowSetting 6 1 (14/100) 1500 0 =
      OnOffSetting.expo (pktTime 1500) (offTimeMean (14/100) (pktTime 1500)) ∧
    pktTime 1500 = 1500 * 8 / 6000000 ∧
    offTimeMean (14/100) (pktTime 1500) = pktTime 1500 * (1 / (14/100) - 1) ∧
    pktTime 1500 / (pktTime 1500 + offTimeMean (14/100) (pktTime 1500)) = 14/100 :=
  C1_calibrator 6 0 1 (14/100) 1500 (by decide) (14/100) (by norm_num)
    (by norm_num) (by norm_num)

/-- C2: the last flow index (the attacking flow) with load exactly 1 gets
constant OnTime 1 and constant OffTime 0, and with load exactly 0 gets
constant OnTime 0 and constant OffTime 1 (lines 131-137). -/
theorem C2_attack_degenerate (NumofNode : ℕ) (hN : 2 ≤ NumofNode)
    (RestNodeLoad : ℚ) (PktLength : ℕ) :
    flowSetting NumofNode 1 RestNodeLoad PktLength (NumofNode / 2 - 1) =
      OnOffSetting.const 1 0 ∧
    flowSetting NumofNode 0 RestNodeLoad PktLength (NumofNode / 2 - 1) =
      OnOffSetting.const 0 1 := by
  constructor
  · unfold flowSetting
    rw [if_pos rfl, if_pos rfl]
  · unfold flowSetting
    rw [if_pos rfl, if_neg (by norm_num : (0:ℚ) ≠ 1), if_pos rfl]

/-- Witness for C2 with the default batch parameters (6 stations, flow 2). -/
theorem C2_attack_degenerate_witness :
    flowSetting 6 1 (14/100) 200 (6 / 2 - 1) = OnOffSetting.const 1 0 ∧
    flowSetting 6 0 (14/100) 200 (6 / 2 - 1) = OnOffSetting.const 0 1 :=
  C2_attack_degenerate 6 (by decide) (14/100) 200

/-- C3: a non-attacking flow always takes the generic exponential branch,
also when its load is exactly 0 or exactly 1 — the degenerate constant
branches of lines 132-137 are reachable only at the attacking flow index.
At load 1 the generic mean agrees with the closed form of the spec. -/
theorem C3_ordinary_no_shortcircuit (NumofNode i : ℕ)
    (hi : i ≠ NumofNode / 2 - 1) (FirstNodeLoad RestNodeLoad : ℚ)
    (PktLength : ℕ) (hr : RestNodeLoad = 0 ∨ RestNodeLoad = 1) :
    flowSetting NumofNode FirstNodeLoad RestNodeLoad PktLength i =
      OnOffSetting.expo (pktTime PktLength)
        (offTimeMean RestNodeLoad (pktTime PktLength)) ∧
    (RestNodeLoad = 1 →
      offTimeMean RestNodeLoad (pktTime PktLength) =
        pktTime PktLength * (1 / RestNodeLoad - 1) ∧
      offTimeMean RestNodeLoad (pktTime PktLength) = 0) := by
  constructor
  · unfold flowSetting
    rw [if_neg hi]
  · intro h1
    subst h1
    unfold offTimeMean
    constructor
    · by_cases hp : pktTime PktLength = 0
      · rw [hp]; norm_num
      · field_simp
    · by_cases hp : pktTime PktLength = 0
      · rw [hp]; norm_num
      · field_simp

/-- Witness for C3: flow 0 of 6 stations with ordinary load exactly 1 still
goes through the exponential branch (whose mean collapses to 0). -/
theorem C3_ordinary_no_shortcircuit_witness :
    flowSetting 6 (14/100) 1 200 0 =
      OnOffSetting.expo (pktTime 200) (offTimeMean 1 (pktTime 200)) ∧
    ((1:ℚ) = 1 →
      offTimeMean 1 (pktTime 200) = pktTime 200 * (1 / 1 - 1) ∧
      offTimeMean 1 (pktTime 200) = 0) :=
  C3_ordinary_no_shortcircuit 6 0 (by decide) (14/100) 1 200 (Or.inr rfl)

/-- C4: the echo-probe start times are NOT distinct: line 184 computes
`0.001 + i/1000` with `size_t` integer division, so every probe of the first
thousand flows starts at exactly 0.001 s.  In the default 6-station run the
probes of flows 0, 1 and 2 therefore coincide, although each one still
precedes every real-traffic start time. -/
theorem C4_probe_start_collision :
    probeStart 0 = probeStart 1 ∧ probeStart 1 = probeStart 2 ∧
    probeStart 0 = 1 / 1000 ∧
    probeStart 2 < flowStart 6 0 ∧ flowStart 6 0 < flowStart 6 1 ∧
    flowStart 6 1 < flowStart 6 2 := by
  unfold probeStart flowStart
  norm_num

/-- C5 counterexample: an attacking-flow load of 3/2 lies outside [0,1], yet
the run does not raise any configuration or resource error — the source has
no validation or error path at all. -/
theorem C5_no_rejection_counterexample :
    ¬ ((3:ℚ)/2 ≤ 1) ∧
    experimentOutcome false 6 203 (3/2) (14/100) 1500 ≠ RunOutcome.configurationError ∧
    experimentOutcome false 6 203 (3/2) (14/100) 1500 ≠ RunOutcome.resourceError := by
  refine ⟨by norm_num, ?_, ?_⟩ <;> simp [experimentOutcome]

/-- C5 amended: no validation is performed — for any load above 1 the run
still proceeds to an `ok` outcome, and the out-of-range value flows through
the generic exponential branch, handing the traffic generator a NEGATIVE
off-time mean. -/
theorem C5_no_rejection (enableCtsRts : Bool) (NumofNode D : ℕ)
    (FirstNodeLoad RestNodeLoad : ℚ) (ha : 1 < FirstNodeLoad)
    (PktLength : ℕ) (hp : 0 < PktLength) :
    experimentOutcome enableCtsRts NumofNode D FirstNodeLoad RestNodeLoad PktLength =
      RunOutcome.ok (experimentFlows NumofNode FirstNodeLoad RestNodeLoad PktLength)
        (statsFileName FirstNodeLoad RestNodeLoad PktLength) ∧
    flowSetting NumofNode FirstNodeLoad RestNodeLoad PktLength (NumofNode / 2 - 1) =
      OnOffSetting.expo (pktTime PktLength)
        (offTimeMean FirstNodeLoad (pktTime PktLength)) ∧
    offTimeMean FirstNodeLoad (pktTime PktLength) < 0 := by
  have hpq : (0:ℚ) < PktLength := by exact_mod_cast hp
  have hpt : 0 < pktTime PktLength := by unfold pktTime; positivity
  have ha0 : FirstNodeLoad ≠ 0 := ne_of_gt (lt_trans one_pos ha)
  refine ⟨rfl, ?_, ?_⟩
  · unfold flowSetting
    rw [if_pos rfl, if_neg (ne_of_gt ha), if_neg ha0]
  · unfold offTimeMean
    have hrw : 1 / (FirstNodeLoad * (1 / pktTime PktLength))
        = pktTime PktLength / FirstNodeLoad := by
      rw [show FirstNodeLoad * (1 / pktTime PktLength)
          = FirstNodeLoad / pktTime PktLength by ring, one_div_div]
    rw [hrw, sub_neg]
    exact div_lt_self hpt ha

/-- Witness for C5 amended at the concrete out-of-range load 3/2. -/
theorem C5_no_rejection_witness :
    experimentOutcome false 6 203 (3/2) (14/100) 1500 =
      RunOutcome.ok (experimentFlows 6 (3/2) (14/100) 1500)
        (statsFileName (3/2) (14/100) 1500) ∧
    flowSetting 6 (3/2) (14/100) 1500 (6 / 2 - 1) =
      OnOffSetting.expo (pktTime 1500) (offTimeMean (3/2) (pktTime 1500)) ∧
    offTimeMean (3/2) (pktTime 1500) < 0 :=
  C5_no_rejection false 6 203 (3/2) (14/100) (by norm_num) 1500 (by decide)

/-- C6: the loop of lines 123-165 builds exactly `NumofNode/2` flows; flow
`k` puts its OnOff source on node `2k` and its sink on node `2k+1`; the
configuration of every non-last flow is independent of `FirstNodeLoad` and
the configuration of the last flow is independent of `RestNodeLoad`; for 6
stations, flows 0 and 1 are ordinary and flow 2 is the attacking one. -/
theorem C6_flow_layout (NumofNode : ℕ) (hN : NumofNode % 2 = 0)
    (FirstNodeLoad FirstNodeLoad' RestNodeLoad RestNodeLoad' : ℚ) (PktLength : ℕ) :
    (experimentFlows NumofNode FirstNodeLoad RestNodeLoad PktLength).length
      = NumofNode / 2 ∧
    (∀ k, k < NumofNode / 2 →
      (experimentFlows NumofNode FirstNodeLoad RestNodeLoad PktLength)[k]? =
        some (buildFlow NumofNode FirstNodeLoad RestNodeLoad PktLength k) ∧
      (buildFlow NumofNode FirstNodeLoad RestNodeLoad PktLength k).senderNode = 2 * k ∧
      (buildFlow NumofNode FirstNodeLoad RestNodeLoad PktLength k).sinkNode = 2 * k + 1) ∧
    (∀ k, k ≠ NumofNode / 2 - 1 →
      flowSetting NumofNode FirstNodeLoad RestNodeLoad PktLength k =
        flowSetting NumofNode FirstNodeLoad' RestNodeLoad PktLength k) ∧
    (flowSetting NumofNode FirstNodeLoad RestNodeLoad PktLength (NumofNode / 2 - 1) =
      flowSetting NumofNode FirstNodeLoad RestNodeLoad' PktLength (NumofNode / 2 - 1)) ∧
    (flowSetting 6 FirstNodeLoad RestNodeLoad PktLength 0 =
        OnOffSetting.expo (pktTime PktLength)
          (offTimeMean RestNodeLoad (pktTime PktLength)) ∧
     flowSetting 6 FirstNodeLoad RestNodeLoad PktLength 1 =
        OnOffSetting.expo (pktTime PktLength)
          (offTimeMean RestNodeLoad (pktTime PktLength)) ∧
     (FirstNodeLoad = 1 → flowSetting 6 FirstNodeLoad RestNodeLoad PktLength 2 =
        OnOffSetting.const 1 0)) := by
  refine ⟨by simp [experimentFlows], ?_, ?_, ?_, ?_, ?_, ?_⟩
  · intro k hk
    refine ⟨?_, by simp [buildFlow, Nat.mul_comm], by simp [buildFlow, Nat.mul_comm]⟩
    simp [experimentFlows, List.getElem?_map, List.getElem?_range, hk]
  · intro k hk
    unfold flowSetting
    rw [if_neg hk, if_neg hk]
  · unfold flowSetting
    rw [if_pos rfl, if_pos rfl]
  · unfold flowSetting
    norm_num
  · unfold flowSetting
    norm_num
  · intro h1
    subst h1
    unfold flowSetting
    norm_num

/-- Witness for C6 with the default batch parameters. -/
theorem C6_flow_layout_witness :
    (experimentFlows 6 1 (14/100) 200).length = 6 / 2 ∧
    (experimentFlows 6 1 (14/100) 200)[2]? = some (buildFlow 6 1 (14/100) 200 2) ∧
    flowSetting 6 1 (14/100) 200 0 = flowSetting 6 0 (14/100) 200 0 := by
  have h := C6_flow_layout 6 (by decide) 1 0 (14/100) (37/100) 200
  exact ⟨h.1, (h.2.1 2 (by decide)).1, h.2.2.1 0 (by decide)⟩

/-- C7 counterexample: the ordinary start offset `3.100 + i*0.01` (line 157)
is not bounded by the attacking start of 53 s (line 147) for every station
count — with 9986 stations, ordinary flow 4991 starts at 53.01 s, after the
attacking flow (index 4992). -/
theorem C7_start_order_counterexample :
    (9986:ℕ) % 2 = 0 ∧ (4991:ℕ) < 9986 / 2 ∧ (4991:ℕ) ≠ 9986 / 2 - 1 ∧
    ¬ (flowStart 9986 4991 < flowStart 9986 (9986 / 2 - 1)) := by
  refine ⟨by decide, by decide, by decide, ?_⟩
  unfold flowStart
  rw [if_neg (by decide : ¬ (4991:ℕ) = 9986 / 2 - 1), if_pos rfl]
  norm_num

/-- C7 amended: ordinary-flow start offsets are strictly increasing in flow
index, and every ordinary flow starts strictly before the attacking flow
whenever the station count is at most 9982. -/
theorem C7_start_order (NumofNode : ℕ) :
    (∀ i j : ℕ, i < j → i ≠ NumofNode / 2 - 1 → j ≠ NumofNode / 2 - 1 →
      flowStart NumofNode i < flowStart NumofNode j) ∧
    (NumofNode ≤ 9982 → ∀ i : ℕ, i < NumofNode / 2 → i ≠ NumofNode / 2 - 1 →
      flowStart NumofNode i < flowStart NumofNode (NumofNode / 2 - 1)) := by
  constructor
  · intro i j hij hi hj
    unfold flowStart
    rw [if_neg hi, if_neg hj]
    have hc : (i:ℚ) < j := by exact_mod_cast hij
    linarith
  · intro hbound i hi hne
    unfold flowStart
    rw [if_neg hne, if_pos rfl]
    have h4989 : i ≤ 4989 := by omega
    have hc : (i:ℚ) ≤ 4989 := by exact_mod_cast h4989
    linarith

/-- Witness for C7 amended at the default 6-station run. -/
theorem C7_start_order_witness :
    flowStart 6 0 < flowStart 6 1 ∧ flowStart 6 0 < flowStart 6 (6 / 2 - 1) := by
  have h := C7_start_order 6
  exact ⟨h.1 0 1 (by decide) (by decide) (by decide),
    h.2 (by decide) 0 (by decide) (by decide)⟩

/-- One top-level action of `main` (lines 209-218): either the single
`RngSeedManager::SetSeed` call or one `experiment` invocation with its full
argument list. -/
inductive MainEvent where
  | setSeed (s : ℕ)
  | runExperiment (enableCtsRts : Bool) (NumofNode DurationofSimulation : ℕ)
      (FirstNodeLoad RestNodeLoad : ℚ) (PktLength : ℕ)
deriving DecidableEq

/-- Tests whether a main action is the seed assignment. -/
def isSeedEvent : MainEvent → Bool
  | MainEvent.setSeed _ => true
  | _ => false

/-- The actions `main` performs, in program order (lines 210-216). -/
def mainEvents : List MainEvent :=
  [MainEvent.setSeed 1,
   MainEvent.runExperiment false 6 203 1 (14/100) 200,
   MainEvent.runExperiment false 6 203 1 (14/100) 1500]

/-- The value `main` returns (line 217). -/
def mainExitCode : ℕ := 0

/-- C8: main sets the seed to 1 exactly once, as its first action, then runs
the experiment once per packet length in order — 200 bytes first, then
1500, both with the handshake disabled, 6 stations, 203 s duration, loads 1
and 0.14 — and returns exit code 0. -/
theorem C8_main_batch :
    mainEvents.head? = some (MainEvent.setSeed 1) ∧
    (mainEvents.filter isSeedEvent).length = 1 ∧
    mainEvents.filter (fun e => !isSeedEvent e) =
      [MainEvent.runExperiment false 6 203 1 (14/100) 200,
       MainEvent.runExperiment false 6 203 1 (14/100) 1500] ∧
    mainExitCode = 0 :=
  ⟨rfl, rfl, rfl, rfl⟩

/-- C9: the output location is the sprintf of line 194 applied to the run
triple — both loads rendered with two decimal places and the packet length
as an integer — so the two default runs get distinct directories that agree
on everything except the packet-length component, each holding the `nodes`
statistics set. -/
theorem C9_output_paths :
    fmt2 1 = "1.00" ∧ fmt2 (14/100) = "0.14" ∧
    pathStem 1 (14/100) = "./CDoS-6Mbps-adhoc-UDP-building/u_0=1.00rho=0.14T=" ∧
    outputPath 1 (14/100) 200 = pathStem 1 (14/100) ++ "200" ∧
    outputPath 1 (14/100) 1500 = pathStem 1 (14/100) ++ "1500" ∧
    outputPath 1 (14/100) 200 ≠ outputPath 1 (14/100) 1500 ∧
    statsFileName 1 (14/100) 200 = outputPath 1 (14/100) 200 ++ "/nodes" ∧
    statsFileName 1 (14/100) 1500 = outputPath 1 (14/100) 1500 ++ "/nodes" := by
  have h1 : fmt2 1 = "1.00" := by
    unfold fmt2
    rw [show round ((1:ℚ) * 100) = 100 by norm_num [round_eq]]
    decide
  have h2 : fmt2 (14/100) = "0.14" := by
    unfold fmt2
    rw [show round ((14/100:ℚ) * 100) = 14 by norm_num [round_eq]]
    decide
  have hstem : pathStem 1 (14/100) = "./CDoS-6Mbps-adhoc-UDP-building/u_0=1.00rho=0.14T=" := by
    unfold pathStem topDirName
    rw [h1, h2]
    decide
  refine ⟨h1, h2, hstem, rfl, rfl, ?_, rfl, rfl⟩
  unfold outputPath
  rw [hstem]
  decide

/-- The attacking flow built by the loop: the one at the last flow index. -/
def attackFlow (NumofNode : ℕ) (FirstNodeLoad RestNodeLoad : ℚ)
    (PktLength : ℕ) : FlowConfig :=
  buildFlow NumofNode FirstNodeLoad RestNodeLoad PktLength (NumofNode / 2 - 1)

/-- Instant `t` lies in the configured activity window of flow `f`: at or
after its StartTime and, when a StopTime is configured, before it. -/
def activeAt (f : FlowConfig) (t : ℚ) : Prop :=
  f.startTime ≤ t ∧ ∀ s, f.stopTime = some s → t < s

/-- Instant `t` is reached by a simulation stopped at `D` seconds
(line 202). -/
def runsAt (D : ℕ) (t : ℚ) : Prop := 0 ≤ t ∧ t < (D:ℚ)

/-- Flow `f` can transmit at instant `t` of a `D`-second run. -/
def transmitsAt (f : FlowConfig) (D : ℕ) (t : ℚ) : Prop :=
  activeAt f t ∧ runsAt D t

/-- The configured window of `f` sits strictly inside the `D`-second run:
a positive warm-up margin before the start and a cool-down margin after the
configured stop. -/
def windowInterior (f : FlowConfig) (D : ℕ) : Prop :=
  0 < f.startTime ∧ ∀ s, f.stopTime = some s → s < (D:ℚ)

/-- Part of the configured activity of the attacking flow is cut off by the
simulation end: some instant of its window is never reached by the run. -/
def attackTruncated (NumofNode D : ℕ) (FirstNodeLoad RestNodeLoad : ℚ)
    (PktLength : ℕ) : Prop :=
  ∃ t, activeAt (attackFlow NumofNode FirstNodeLoad RestNodeLoad PktLength) t ∧
    ¬ runsAt D t

/-- C10 counterexample: a duration of exactly 153 s lies in the claimed
truncation range (53, 153], yet nothing is truncated — the window [53, 153)
fits completely into a 153-second run. -/
theorem C10_window_counterexample :
    (53:ℚ) < 153 ∧ (153:ℚ) ≤ 153 ∧ ¬ attackTruncated 6 153 1 (14/100) 200 := by
  refine ⟨by norm_num, le_refl _, ?_⟩
  rintro ⟨t, ⟨hstart, hstop⟩, hout⟩
  have hs : (attackFlow 6 1 (14/100) 200).stopTime = some 153 := by
    unfold attackFlow buildFlow flowStop
    rw [if_pos rfl]
  have ht153 : t < 153 := hstop 153 hs
  have hstart53 : (53:ℚ) ≤ t := by
    have : (attackFlow 6 1 (14/100) 200).startTime = 53 := by
      unfold attackFlow buildFlow flowStart
      rw [if_pos rfl]
    rw [this] at hstart
    exact hstart
  exact hout ⟨by linarith, by exact_mod_cast ht153⟩

/-- C10 amended: the attacking-flow window is the constant [53 s, 153 s),
independent of the run duration `D`; the flow transmits at some instant iff
`D > 53` (and never iff `D ≤ 53`), its window is interior to the run iff
`D > 153`, and part of its window is truncated iff `D < 153` — at `D = 153`
the window exactly fills the tail of the run and nothing is lost. -/
theorem C10_attack_window (NumofNode : ℕ) (hN : 2 ≤ NumofNode) (D : ℕ)
    (FirstNodeLoad RestNodeLoad : ℚ) (PktLength : ℕ) :
    (attackFlow NumofNode FirstNodeLoad RestNodeLoad PktLength).startTime = 53 ∧
    (attackFlow NumofNode FirstNodeLoad RestNodeLoad PktLength).stopTime = some 153 ∧
    ((∃ t, transmitsAt (attackFlow NumofNode FirstNodeLoad RestNodeLoad PktLength) D t)
      ↔ 53 < (D:ℚ)) ∧
    (attackTruncated NumofNode D FirstNodeLoad RestNodeLoad PktLength ↔ (D:ℚ) < 153) ∧
    (windowInterior (attackFlow NumofNode FirstNodeLoad RestNodeLoad PktLength) D
      ↔ 153 < (D:ℚ)) := by
  have hstart : (attackFlow NumofNode FirstNodeLoad RestNodeLoad PktLength).startTime = 53 := by
    unfold attackFlow buildFlow flowStart
    rw [if_pos rfl]
  have hstop : (attackFlow NumofNode FirstNodeLoad RestNodeLoad PktLength).stopTime
      = some 153 := by
    unfold attackFlow buildFlow flowStop
    rw [if_pos rfl]
  refine ⟨hstart, hstop, ?_, ?_, ?_⟩
  · constructor
    · rintro ⟨t, ⟨h1, _⟩, _, h3⟩
      rw [hstart] at h1
      linarith
    · intro hD
      refine ⟨53, ⟨by rw [hstart], ?_⟩, by norm_num, hD⟩
      intro s hs
      rw [hstop] at hs
      injection hs with hs
      rw [← hs]
      norm_num
  · constructor
    · rintro ⟨t, ⟨h1, h2⟩, hout⟩
      rw [hstart] at h1
      have ht : t < 153 := h2 153 hstop
      by_contra hD
      push_neg at hD
      exact hout ⟨by linarith, by linarith⟩
    · intro hD
      refine ⟨max 53 (D:ℚ), ⟨by rw [hstart]; exact le_max_left _ _, ?_⟩, ?_⟩
      · intro s hs
        rw [hstop] at hs
        injection hs with hs
        rw [← hs]
        exact max_lt (by norm_num) hD
      · intro hr
        exact absurd hr.2 (not_lt.mpr (le_max_right _ _))
  · unfold windowInterior
    rw [hstart, hstop]
    constructor
    · rintro ⟨_, h⟩
      exact h 153 rfl
    · intro hD
      refine ⟨by norm_num, ?_⟩
      intro s hs
      injection hs with hs
      rw [← hs]
      exact hD

/-- Witness for C10 amended at the default run (203 s): the window is
interior and nothing is truncated. -/
theorem C10_attack_window_witness :
    (attackFlow 6 1 (14/100) 200).startTime = 53 ∧
    windowInterior (attackFlow 6 1 (14/100) 200) 203 ∧
    ¬ attackTruncated 6 203 1 (14/100) 200 := by
  have h := C10_attack_window 6 (by decide) 203 1 (14/100) 200
  refine ⟨h.1, h.2.2.2.2.mpr (by norm_num), ?_⟩
  intro ht
  have := h.2.2.2.1.mp ht
  norm_num at this

end CDoS
